import Mathlib

/-!
Verification of the inertial height-estimation engine of the
height-scanner repository, canonical (peak-tracking) variant of the
`useIMUHeight` hook.  JavaScript numbers are modelled as real numbers;
`Math.sqrt` is `Real.sqrt`, `Math.round` is Mathlib's `round`
(`round x = ⌊x + 1/2⌋`, which matches JavaScript's round-half-up),
`Math.floor` is `Int.floor`.  The engine's mutable refs are gathered
into one explicit `EngineState` record, and the `devicemotion`
callback `onMotion` becomes a state-transition function consuming one
`MotionSample` and producing the next state plus the emitted snapshot.
-/

open scoped Classical

namespace HeightScanner

/-- The `Vec3` record of the source: three real components. -/
@[ext] structure Vec3 where
  x : ℝ
  y : ℝ
  z : ℝ

/-- `vecAdd` from the source. -/
def vecAdd (a b : Vec3) : Vec3 := ⟨a.x + b.x, a.y + b.y, a.z + b.z⟩

/-- `vecScale` from the source. -/
def vecScale (a : Vec3) (s : ℝ) : Vec3 := ⟨a.x * s, a.y * s, a.z * s⟩

/-- `vecLen` from the source: Euclidean norm. -/
noncomputable def vecLen (a : Vec3) : ℝ :=
  Real.sqrt (a.x * a.x + a.y * a.y + a.z * a.z)

/-- `vecSub` from the source. -/
def vecSub (a b : Vec3) : Vec3 := ⟨a.x - b.x, a.y - b.y, a.z - b.z⟩

/-- `vecDot` from the source. -/
def vecDot (a b : Vec3) : ℝ := a.x * b.x + a.y * b.y + a.z * b.z

/-- `vecNorm` from the source; `const l = vecLen(a) || 1` substitutes 1
for a zero length, so normalizing the zero vector yields zero. -/
noncomputable def vecNorm (a : Vec3) : Vec3 :=
  let l := if vecLen a = 0 then 1 else vecLen a
  ⟨a.x / l, a.y / l, a.z / l⟩

/-- One `devicemotion` event as the engine consumes it.  A `none`
acceleration models a null `accelerationIncludingGravity`; a `none`
rotation rate models a null `rotationRate` (its components' `?? 0`
defaults are folded into the `Vec3`).  `timestamp` is the
`performance.now()` value at delivery (ms) and `intervalMs` is
`e.interval` when the platform supplies a numeric value. -/
structure MotionSample where
  accel : Option Vec3
  rotationRate : Option Vec3
  timestamp : ℝ
  intervalMs : Option ℝ

/-- Errors surfaced through `setError`, named after the spec's
taxonomy; the source stores the corresponding message strings. -/
inductive EngineError where
  | notCalibrated
  | calibrationNoData
deriving DecidableEq

/-- All mutable refs of the canonical `useIMUHeight` variant gathered
into one record: `gravityRef`, `lastTimestampRef`, `velocityRef`,
`displacementRef`, `peakDisplacementRef`, `stationarySamplesRef`,
`totalSamplesRef`, `hasCalibratedRef`, plus the phase booleans of
`MeasurementState` and the `error` cell. -/
@[ext] structure EngineState where
  gravity : Vec3
  lastTimestamp : ℝ
  velocity : ℝ
  displacement : ℝ
  peakDisplacement : ℝ
  stationarySamples : ℕ
  totalSamples : ℕ
  hasCalibrated : Bool
  isCalibrating : Bool
  isMeasuring : Bool
  isComplete : Bool
  error : Option EngineError

/-- The externally reported snapshot fields (`heightCm`, `heightFt`,
`heightInches`, `confidence`); the debug string is presentation only
and is not modelled. -/
@[ext] structure Snapshot where
  heightCm : ℝ
  heightFeet : ℝ
  heightInches : ℝ
  confidence : ℝ

/-- `Math.round(x * 10) / 10`, the source's rounding to one decimal. -/
noncomputable def jsRound1 (x : ℝ) : ℝ := ((round (x * 10) : ℤ) : ℝ) / 10

/-- JavaScript truncation toward zero, used by the `%` operator. -/
noncomputable def jsTrunc (x : ℝ) : ℤ := if 0 ≤ x then ⌊x⌋ else ⌈x⌉

/-- JavaScript's `a % b` on numbers: `a - b * trunc(a / b)`. -/
noncomputable def jsMod (a b : ℝ) : ℝ := a - b * (jsTrunc (a / b) : ℝ)

/-- Result record of `toFeetInches`. -/
@[ext] structure FeetInches where
  feet : ℝ
  inches : ℝ
  cm : ℝ

/-- `toFeetInches` from the source. -/
noncomputable def toFeetInches (cm : ℝ) : FeetInches :=
  let totalInches := cm / 2.54
  { feet := ((⌊totalInches / 12⌋ : ℤ) : ℝ)
    inches := jsRound1 (jsMod totalInches 12)
    cm := jsRound1 cm }

/-- The low-pass filter coefficient `const lpf = 0.01`. -/
def lpf : ℝ := 0.01

/-- The low-pass gravity candidate
`vecAdd(vecScale(gPrev, 1 - lpf), vecScale(gMeas, lpf))`. -/
def gravityCandidate (gPrev gMeas : Vec3) : Vec3 :=
  vecAdd (vecScale gPrev (1 - lpf)) (vecScale gMeas lpf)

/-- `rotMag`: Euclidean magnitude of the rotation rate, 0 if absent. -/
noncomputable def rotMagOf (rr : Option Vec3) : ℝ :=
  match rr with
  | some r => Real.sqrt (r.x ^ 2 + r.y ^ 2 + r.z ^ 2)
  | none => 0

/-- `allowGUpdate = aLinMagCandidate < 0.2 && rotMag < 3`. -/
noncomputable def allowGUpdate (gPrev gMeas : Vec3) (rr : Option Vec3) : Prop :=
  vecLen (vecSub gMeas (gravityCandidate gPrev gMeas)) < 0.2 ∧ rotMagOf rr < 3

/-- `gNew = allowGUpdate ? gCandidate : gPrev`. -/
noncomputable def gravityNext (gPrev gMeas : Vec3) (rr : Option Vec3) : Vec3 :=
  if allowGUpdate gPrev gMeas rr then gravityCandidate gPrev gMeas else gPrev

/-- The up direction: `vecNorm({-g.x, -g.y, -g.z})` for the updated
gravity estimate. -/
noncomputable def upOf (g : Vec3) : Vec3 := vecNorm ⟨-g.x, -g.y, -g.z⟩

/-- Linear acceleration `aLin = vecSub(gMeas, gNew)` computed with the
updated gravity estimate. -/
noncomputable def aLinOf (gPrev gMeas : Vec3) (rr : Option Vec3) : Vec3 :=
  vecSub gMeas (gravityNext gPrev gMeas rr)

/-- Vertical acceleration `aVert = vecDot(aLin, up)` in m/s². -/
noncomputable def aVertOf (gPrev gMeas : Vec3) (rr : Option Vec3) : ℝ :=
  vecDot (aLinOf gPrev gMeas rr) (upOf (gravityNext gPrev gMeas rr))

/-- The motion classifier:
`stationary = |aVert| < 0.03 && rotMag < 0.7 && aLinMag < 0.06`. -/
noncomputable def stationaryOf (gPrev gMeas : Vec3) (rr : Option Vec3) : Prop :=
  |aVertOf gPrev gMeas rr| < 0.03 ∧ rotMagOf rr < 0.7 ∧
    vecLen (aLinOf gPrev gMeas rr) < 0.06

/-- The raw time delta of a sample, before clamping: `e.interval / 1000`
when a positive numeric interval is supplied, else the wall-clock delta
to the previous sample, else the 0.02 s default on the first sample. -/
noncomputable def computeRawDt (s : EngineState) (m : MotionSample) : ℝ :=
  match m.intervalMs with
  | some i =>
      if 0 < i then i / 1000
      else if s.lastTimestamp = 0 then 0.02
      else (m.timestamp - s.lastTimestamp) / 1000
  | none =>
      if s.lastTimestamp = 0 then 0.02
      else (m.timestamp - s.lastTimestamp) / 1000

/-- The clamped time delta `dt = Math.max(0.005, Math.min(0.05, dt))`. -/
noncomputable def computeDt (s : EngineState) (m : MotionSample) : ℝ :=
  max 0.005 (min 0.05 (computeRawDt s m))

/-- The consecutive-stationary sample counter after this sample:
incremented when stationary, reset to 0 otherwise. -/
noncomputable def nextCount (s : EngineState) (m : MotionSample) (a : Vec3) : ℕ :=
  if stationaryOf s.gravity a m.rotationRate then s.stationarySamples + 1 else 0

/-- The velocity after this sample: integrate `aVert * 100 * dt`, damp
by 0.9995 when not stationary, then force to 0 when the updated
stationary count times `dt` reaches 0.5 s. -/
noncomputable def velocityNext (s : EngineState) (m : MotionSample) (a : Vec3) : ℝ :=
  let dt := computeDt s m
  let v1 := s.velocity + aVertOf s.gravity a m.rotationRate * 100 * dt
  let v2 := if stationaryOf s.gravity a m.rotationRate then v1 else v1 * 0.9995
  if ((nextCount s m a : ℝ)) * dt ≥ 0.5 then 0 else v2

/-- Displacement after integrating the non-negative part of velocity:
`displacement += Math.max(0, velocity) * dt`. -/
noncomputable def displacementMid (s : EngineState) (m : MotionSample) (a : Vec3) : ℝ :=
  s.displacement + max 0 (velocityNext s m a) * computeDt s m

/-- Displacement after the lower clamp `if (d < 0) d = 0`. -/
noncomputable def displacementFloored (s : EngineState) (m : MotionSample) (a : Vec3) : ℝ :=
  if displacementMid s m a < 0 then 0 else displacementMid s m a

/-- The running maximum `peak = Math.max(peak, displacement)` taken
before the 300 cm upper clamps. -/
noncomputable def peakRaw (s : EngineState) (m : MotionSample) (a : Vec3) : ℝ :=
  max s.peakDisplacement (displacementFloored s m a)

/-- Displacement after the upper clamp `if (d > 300) d = 300`. -/
noncomputable def displacementNext (s : EngineState) (m : MotionSample) (a : Vec3) : ℝ :=
  if displacementFloored s m a > 300 then 300 else displacementFloored s m a

/-- Peak displacement after the upper clamp `if (p > 300) p = 300`. -/
noncomputable def peakNext (s : EngineState) (m : MotionSample) (a : Vec3) : ℝ :=
  if peakRaw s m a > 300 then 300 else peakRaw s m a

/-- `confBase = Math.min(95, 60 + Math.min(35, (cmRounded / 200) * 35))`. -/
noncomputable def confBaseOf (cmRounded : ℝ) : ℝ := min 95 (60 + min 35 (cmRounded / 200 * 35))

/-- `conf = stationary ? Math.min(99.5, confBase + 3) : confBase`. -/
noncomputable def confOf (cmRounded : ℝ) (stat : Prop) : ℝ :=
  if stat then min 99.5 (confBaseOf cmRounded + 3) else confBaseOf cmRounded

/-- The snapshot pushed into `measurementState` after a sample: the peak
displacement rounded to 0.1 cm, its feet/inches conversion, and the
confidence (itself rounded to one decimal when stored). -/
noncomputable def snapshotOf (peak : ℝ) (stat : Prop) : Snapshot :=
  let cm := jsRound1 peak
  let fi := toFeetInches cm
  { heightCm := fi.cm
    heightFeet := fi.feet
    heightInches := fi.inches
    confidence := jsRound1 (confOf fi.cm stat) }

/-- The `onMotion` handler of the canonical variant.  The raw dt and the
timestamp ref update happen before the null-acceleration guard, so a
sample without acceleration still overwrites `lastTimestampRef`; a
sample with acceleration is always processed, with dt clamped. -/
noncomputable def onMotion (s : EngineState) (m : MotionSample) :
    EngineState × Option Snapshot :=
  match m.accel with
  | none => ({ s with lastTimestamp := m.timestamp }, none)
  | some a =>
      ({ s with
          gravity := gravityNext s.gravity a m.rotationRate
          lastTimestamp := m.timestamp
          velocity := velocityNext s m a
          displacement := displacementNext s m a
          peakDisplacement := peakNext s m a
          stationarySamples := nextCount s m a
          totalSamples := s.totalSamples + 1 },
        some (snapshotOf (peakNext s m a) (stationaryOf s.gravity a m.rotationRate)))

/-- Processing a whole sample stream during measurement. -/
noncomputable def runMeasurement (s : EngineState) (l : List MotionSample) : EngineState :=
  l.foldl (fun t m => (onMotion t m).1) s

/-- `startMeasurement`: fails when not calibrated, otherwise clears the
integrator refs and enters the measuring phase. -/
def startMeasurement (s : EngineState) : EngineState :=
  if s.hasCalibrated then
    { s with
        error := none
        displacement := 0
        peakDisplacement := 0
        velocity := 0
        lastTimestamp := 0
        stationarySamples := 0
        totalSamples := 0
        isMeasuring := true
        isComplete := false }
  else { s with error := some EngineError.notCalibrated }

/-- `stopMeasurement`: detaches the listeners and marks completion. -/
def stopMeasurement (s : EngineState) : EngineState :=
  { s with isMeasuring := false, isComplete := true }

/-- `resetMeasurement`: unconditionally restores every ref and flag to
its default; the result does not depend on the previous state. -/
def resetMeasurement (_ : EngineState) : EngineState :=
  { gravity := ⟨0, 0, 9.81⟩
    lastTimestamp := 0
    velocity := 0
    displacement := 0
    peakDisplacement := 0
    stationarySamples := 0
    totalSamples := 0
    hasCalibrated := false
    isCalibrating := false
    isMeasuring := false
    isComplete := false
    error := none }

/-- The whole `calibrate` flow with the samples collected during its
1.5 s window passed explicitly: clears the error at entry, then either
surfaces the no-data failure or seeds gravity with the arithmetic mean
of the collected vectors and marks calibration successful. -/
noncomputable def calibrate (s : EngineState) (samples : List Vec3) : EngineState :=
  if samples.isEmpty then
    { s with isCalibrating := false, error := some EngineError.calibrationNoData }
  else
    { s with
        gravity := vecScale (samples.foldl vecAdd ⟨0, 0, 0⟩) (1 / (samples.length : ℝ))
        hasCalibrated := true
        isCalibrating := false
        error := none }

/-- The spec's invariant on the integrator state. -/
def IntegratorInv (s : EngineState) : Prop :=
  0 ≤ s.displacement ∧ s.displacement ≤ 300 ∧
    0 ≤ s.peakDisplacement ∧ s.peakDisplacement ≤ 300 ∧
    s.displacement ≤ s.peakDisplacement

lemma vecLen_zAxis (c : ℝ) : vecLen ⟨0, 0, c⟩ = |c| := by
  have h : ((0 : ℝ) * 0 + 0 * 0 + c * c) = c * c := by ring
  unfold vecLen
  rw [h, Real.sqrt_mul_self_eq_abs]

lemma vecLen_zero : vecLen ⟨0, 0, 0⟩ = 0 := by
  rw [vecLen_zAxis]; simp

lemma vecNorm_zNeg (c : ℝ) (hc : 0 < c) : vecNorm ⟨0, 0, -c⟩ = ⟨0, 0, -1⟩ := by
  unfold vecNorm
  rw [vecLen_zAxis, abs_neg, abs_of_pos hc]
  have hne : c ≠ 0 := ne_of_gt hc
  simp only [if_neg hne]
  ext <;> simp [neg_div, div_self hne]

lemma vecSub_self (a : Vec3) : vecSub a a = ⟨0, 0, 0⟩ := by
  ext <;> simp [vecSub]

lemma vecDot_zero_left (u : Vec3) : vecDot ⟨0, 0, 0⟩ u = 0 := by
  simp [vecDot]

lemma gravityCandidate_same (g : Vec3) : gravityCandidate g g = g := by
  ext <;> simp [gravityCandidate, vecAdd, vecScale, lpf] <;> ring

lemma rotMag_none : rotMagOf none = 0 := rfl

lemma gravityNext_same (g : Vec3) (rr : Option Vec3) (h : rotMagOf rr < 3) :
    gravityNext g g rr = g := by
  unfold gravityNext
  rw [if_pos, gravityCandidate_same]
  refine ⟨?_, h⟩
  rw [gravityCandidate_same, vecSub_self, vecLen_zero]
  norm_num

lemma aVert_same (g : Vec3) (rr : Option Vec3) (h : rotMagOf rr < 3) :
    aVertOf g g rr = 0 := by
  unfold aVertOf aLinOf
  rw [gravityNext_same g rr h, vecSub_self, vecDot_zero_left]

lemma stationary_same (g : Vec3) (rr : Option Vec3) (h : rotMagOf rr < 0.7) :
    stationaryOf g g rr := by
  have h3 : rotMagOf rr < 3 := h.trans (by norm_num)
  refine ⟨?_, h, ?_⟩
  · rw [aVert_same g rr h3]; norm_num
  · unfold aLinOf
    rw [gravityNext_same g rr h3, vecSub_self, vecLen_zero]
    norm_num

lemma computeDt_pos (s : EngineState) (m : MotionSample) : 0 < computeDt s m :=
  lt_of_lt_of_le (by norm_num) (le_max_left _ _)

lemma computeDt_lb (s : EngineState) (m : MotionSample) : 0.005 ≤ computeDt s m :=
  le_max_left _ _

lemma computeDt_ub (s : EngineState) (m : MotionSample) : computeDt s m ≤ 0.05 :=
  max_le (by norm_num) (min_le_left _ _)

lemma displacementFloored_nonneg (s : EngineState) (m : MotionSample) (a : Vec3) :
    0 ≤ displacementFloored s m a := by
  unfold displacementFloored
  split_ifs with h
  · exact le_refl 0
  · exact le_of_not_lt h

lemma displacementMid_ge (s : EngineState) (m : MotionSample) (a : Vec3) :
    s.displacement ≤ displacementMid s m a := by
  unfold displacementMid
  have := mul_nonneg (le_max_left 0 (velocityNext s m a)) (computeDt_pos s m).le
  linarith

lemma displacementNext_nonneg (s : EngineState) (m : MotionSample) (a : Vec3) :
    0 ≤ displacementNext s m a := by
  unfold displacementNext
  split_ifs with h
  · norm_num
  · exact displacementFloored_nonneg s m a

lemma displacementNext_le300 (s : EngineState) (m : MotionSample) (a : Vec3) :
    displacementNext s m a ≤ 300 := by
  unfold displacementNext
  split_ifs with h
  · norm_num
  · exact le_of_not_lt h

lemma peakNext_nonneg (s : EngineState) (m : MotionSample) (a : Vec3) :
    0 ≤ peakNext s m a := by
  unfold peakNext
  split_ifs with h
  · norm_num
  · exact le_trans (displacementFloored_nonneg s m a) (le_max_right _ _)

lemma peakNext_le300 (s : EngineState) (m : MotionSample) (a : Vec3) :
    peakNext s m a ≤ 300 := by
  unfold peakNext
  split_ifs with h
  · norm_num
  · exact le_of_not_lt h

lemma displacementNext_le_peakNext (s : EngineState) (m : MotionSample) (a : Vec3) :
    displacementNext s m a ≤ peakNext s m a := by
  unfold displacementNext peakNext peakRaw
  have hd := le_max_right s.peakDisplacement (displacementFloored s m a)
  split_ifs with h1 h2 h2
  · norm_num
  · exact absurd (lt_of_lt_of_le h1 hd) h2
  · exact le_of_not_lt h1
  · exact hd

lemma peakNext_ge (s : EngineState) (m : MotionSample) (a : Vec3)
    (h : s.peakDisplacement ≤ 300) : s.peakDisplacement ≤ peakNext s m a := by
  unfold peakNext peakRaw
  split_ifs with h1
  · exact h
  · exact le_max_left _ _

lemma onMotion_fst_none (s : EngineState) (m : MotionSample) (h : m.accel = none) :
    (onMotion s m).1 = { s with lastTimestamp := m.timestamp } := by
  unfold onMotion
  rw [h]

lemma onMotion_fst_some (s : EngineState) (m : MotionSample) (a : Vec3)
    (h : m.accel = some a) :
    (onMotion s m).1 =
      { s with
          gravity := gravityNext s.gravity a m.rotationRate
          lastTimestamp := m.timestamp
          velocity := velocityNext s m a
          displacement := displacementNext s m a
          peakDisplacement := peakNext s m a
          stationarySamples := nextCount s m a
          totalSamples := s.totalSamples + 1 } := by
  unfold onMotion
  rw [h]

lemma onMotion_snd_some (s : EngineState) (m : MotionSample) (a : Vec3)
    (h : m.accel = some a) :
    (onMotion s m).2 =
      some (snapshotOf (peakNext s m a) (stationaryOf s.gravity a m.rotationRate)) := by
  unfold onMotion
  rw [h]

lemma integratorInv_step (s : EngineState) (m : MotionSample)
    (h : IntegratorInv s) : IntegratorInv ((onMotion s m).1) := by
  rcases haccel : m.accel with _ | a
  · rw [onMotion_fst_none s m haccel]
    exact h
  · rw [onMotion_fst_some s m a haccel]
    exact ⟨displacementNext_nonneg s m a, displacementNext_le300 s m a,
      peakNext_nonneg s m a, peakNext_le300 s m a, displacementNext_le_peakNext s m a⟩

lemma integratorInv_run (s : EngineState) (l : List MotionSample)
    (h : IntegratorInv s) : IntegratorInv (runMeasurement s l) := by
  induction l generalizing s with
  | nil => exact h
  | cons m t ih =>
      show IntegratorInv (runMeasurement ((onMotion s m).1) t)
      exact ih _ (integratorInv_step s m h)

/-- A calibrated gravity estimate used by the concrete test streams. -/
def g10 : Vec3 := ⟨0, 0, 10⟩

/-- A perfectly still sample: the measured acceleration equals the
gravity estimate, no rotation, platform interval 50 ms. -/
def stillS : MotionSample :=
  { accel := some g10, rotationRate := none, timestamp := 0, intervalMs := some 50 }

/-- A slightly perturbed still sample: measured acceleration 9.98 m/s²
along z (still classified stationary), platform interval 5 ms. -/
def pertS : MotionSample :=
  { accel := some ⟨0, 0, 9.98⟩, rotationRate := none, timestamp := 0, intervalMs := some 5 }

/-- The engine state during measurement right after `startMeasurement`
with calibrated gravity `g10`, where `k` consecutively stationary
zero-signal samples have already been processed. -/
def zState (k : ℕ) : EngineState :=
  { gravity := g10
    lastTimestamp := 0
    velocity := 0
    displacement := 0
    peakDisplacement := 0
    stationarySamples := k
    totalSamples := k
    hasCalibrated := true
    isCalibrating := false
    isMeasuring := true
    isComplete := false
    error := none }

lemma computeDt_stillS (s : EngineState) : computeDt s stillS = 0.05 := by
  unfold computeDt computeRawDt stillS
  norm_num

lemma computeDt_pertS (s : EngineState) : computeDt s pertS = 0.005 := by
  unfold computeDt computeRawDt pertS
  norm_num

lemma stationary_still : stationaryOf g10 g10 none :=
  stationary_same g10 none (by rw [rotMag_none]; norm_num)

lemma onMotion_zState (k : ℕ) : (onMotion (zState k) stillS).1 = zState (k + 1) := by
  rw [onMotion_fst_some (zState k) stillS g10 rfl]
  have hg : (zState k).gravity = g10 := rfl
  have hst : stationaryOf (zState k).gravity g10 stillS.rotationRate := by
    rw [hg]; exact stationary_still
  have h3 : rotMagOf stillS.rotationRate < 3 := by
    rw [show stillS.rotationRate = none from rfl, rotMag_none]; norm_num
  have hgn : gravityNext (zState k).gravity g10 stillS.rotationRate = g10 := by
    rw [hg]; exact gravityNext_same g10 _ h3
  have hav : aVertOf (zState k).gravity g10 stillS.rotationRate = 0 := by
    rw [hg]; exact aVert_same g10 _ h3
  have hcnt : nextCount (zState k) stillS g10 = k + 1 := by
    unfold nextCount
    rw [if_pos hst]
    rfl
  have hv : velocityNext (zState k) stillS g10 = 0 := by
    simp only [velocityNext]
    rw [hav, if_pos hst]
    have h0 : (zState k).velocity + 0 * 100 * computeDt (zState k) stillS = 0 := by
      show (0 : ℝ) + 0 * 100 * computeDt (zState k) stillS = 0
      ring
    rw [h0, ite_self]
  have hdm : displacementMid (zState k) stillS g10 = 0 := by
    unfold displacementMid
    rw [hv]
    show (0 : ℝ) + max 0 0 * computeDt (zState k) stillS = 0
    simp
  have hdf : displacementFloored (zState k) stillS g10 = 0 := by
    unfold displacementFloored
    rw [hdm]
    norm_num
  have hdn : displacementNext (zState k) stillS g10 = 0 := by
    unfold displacementNext
    rw [hdf]
    norm_num
  have hpr : peakRaw (zState k) stillS g10 = 0 := by
    unfold peakRaw
    rw [hdf]
    show max (0 : ℝ) 0 = 0
    simp
  have hpn : peakNext (zState k) stillS g10 = 0 := by
    unfold peakNext
    rw [hpr]
    norm_num
  rw [hgn, hv, hdn, hpn, hcnt]
  rfl

lemma run_zState (j k : ℕ) :
    runMeasurement (zState k) (List.replicate j stillS) = zState (k + j) := by
  induction j generalizing k with
  | zero => rfl
  | succ n ih =>
      rw [List.replicate_succ]
      show runMeasurement ((onMotion (zState k) stillS).1) (List.replicate n stillS) =
        zState (k + (n + 1))
      rw [onMotion_zState k, ih (k + 1)]
      congr 1
      omega

lemma gravityNext_pert : gravityNext g10 ⟨0, 0, 9.98⟩ none = ⟨0, 0, 9.9998⟩ := by
  have hcand : gravityCandidate g10 ⟨0, 0, 9.98⟩ = ⟨0, 0, 9.9998⟩ := by
    ext <;> simp [gravityCandidate, vecAdd, vecScale, lpf, g10] <;> norm_num
  unfold gravityNext
  rw [if_pos, hcand]
  constructor
  · rw [hcand]
    have : vecSub ⟨0, 0, 9.98⟩ ⟨0, 0, 9.9998⟩ = ⟨0, 0, -0.0198⟩ := by
      ext <;> simp [vecSub] <;> norm_num
    rw [this, vecLen_zAxis]
    rw [abs_of_nonpos (by norm_num)]
    norm_num
  · rw [rotMag_none]; norm_num

lemma aLin_pert : aLinOf g10 ⟨0, 0, 9.98⟩ none = ⟨0, 0, -0.0198⟩ := by
  unfold aLinOf
  rw [gravityNext_pert]
  ext <;> simp [vecSub] <;> norm_num

lemma upOf_zPos (c : ℝ) (hc : 0 < c) : upOf ⟨0, 0, c⟩ = ⟨0, 0, -1⟩ := by
  unfold upOf
  have h : (⟨-Vec3.x ⟨0, 0, c⟩, -Vec3.y ⟨0, 0, c⟩, -Vec3.z ⟨0, 0, c⟩⟩ : Vec3) =
      ⟨0, 0, -c⟩ := by
    ext <;> simp
  rw [h, vecNorm_zNeg c hc]

lemma aVert_pert : aVertOf g10 ⟨0, 0, 9.98⟩ none = 0.0198 := by
  unfold aVertOf
  rw [aLin_pert, gravityNext_pert, upOf_zPos 9.9998 (by norm_num)]
  unfold vecDot
  norm_num

lemma stationary_pert : stationaryOf g10 ⟨0, 0, 9.98⟩ none := by
  refine ⟨?_, ?_, ?_⟩
  · rw [aVert_pert]
    rw [abs_of_pos (by norm_num)]
    norm_num
  · rw [rotMag_none]; norm_num
  · rw [aLin_pert, vecLen_zAxis, abs_of_nonpos (by norm_num)]
    norm_num

/-- Definition following the spec's words, for comparison with the
code's zero-velocity-update condition: one step of the accumulated
stationary seconds, where each sample classified stationary adds its dt
and any non-stationary sample resets the accumulator to 0 (a sample
without acceleration leaves it untouched). -/
noncomputable def specAccumStep (p : EngineState × ℝ) (m : MotionSample) :
    EngineState × ℝ :=
  match m.accel with
  | none => ((onMotion p.1 m).1, p.2)
  | some a =>
      ((onMotion p.1 m).1,
        if stationaryOf p.1.gravity a m.rotationRate then p.2 + computeDt p.1 m else 0)

/-- The spec's `stationaryAccumSeconds` at the end of a stream. -/
noncomputable def specStationaryAccum (s : EngineState) (l : List MotionSample) : ℝ :=
  (l.foldl specAccumStep (s, 0)).2

/-- The stream of the zero-velocity counterexample: ten still 50 ms
samples followed by one slightly perturbed stationary 5 ms sample,
0.505 s of consecutively stationary samples in total. -/
def exStream : List MotionSample := List.replicate 10 stillS ++ [pertS]

lemma specAccumStep_some (p : EngineState × ℝ) (m : MotionSample) (a : Vec3)
    (h : m.accel = some a) :
    specAccumStep p m =
      ((onMotion p.1 m).1,
        if stationaryOf p.1.gravity a m.rotationRate then p.2 + computeDt p.1 m
        else 0) := by
  unfold specAccumStep
  rw [h]

lemma specAccumStep_zState (k : ℕ) (c : ℝ) :
    specAccumStep (zState k, c) stillS = (zState (k + 1), c + 0.05) := by
  rw [specAccumStep_some (zState k, c) stillS g10 rfl]
  rw [show ((zState k, c) : EngineState × ℝ).1 = zState k from rfl,
    show ((zState k, c) : EngineState × ℝ).2 = c from rfl]
  rw [onMotion_zState k,
    if_pos (show stationaryOf (zState k).gravity g10 stillS.rotationRate from
      stationary_still),
    computeDt_stillS]

lemma accum_replicate (j k : ℕ) (c : ℝ) :
    (List.replicate j stillS).foldl specAccumStep (zState k, c) =
      (zState (k + j), c + 0.05 * (j : ℝ)) := by
  induction j generalizing k c with
  | zero => simp
  | succ n ih =>
      rw [List.replicate_succ, List.foldl_cons, specAccumStep_zState k c,
        ih (k + 1) (c + 0.05)]
      refine Prod.ext ?_ ?_
      · show zState (k + 1 + n) = zState (k + (n + 1))
        congr 1
        omega
      · show c + 0.05 + 0.05 * (n : ℝ) = c + 0.05 * ((n + 1 : ℕ) : ℝ)
        push_cast
        ring

lemma accum_ex : specStationaryAccum (zState 0) exStream = 0.505 := by
  unfold specStationaryAccum exStream
  rw [List.foldl_append, accum_replicate 10 0 0]
  rw [show (0 + 10 : ℕ) = 10 from rfl]
  rw [List.foldl_cons, List.foldl_nil,
    specAccumStep_some (zState 10, 0 + 0.05 * ((10 : ℕ) : ℝ)) pertS ⟨0, 0, 9.98⟩ rfl]
  rw [show ((zState 10, 0 + 0.05 * ((10 : ℕ) : ℝ)) : EngineState × ℝ).1 = zState 10
    from rfl]
  show (if stationaryOf (zState 10).gravity ⟨0, 0, 9.98⟩ pertS.rotationRate
    then 0 + 0.05 * ((10 : ℕ) : ℝ) + computeDt (zState 10) pertS else 0) = 0.505
  rw [if_pos (show stationaryOf (zState 10).gravity ⟨0, 0, 9.98⟩ pertS.rotationRate
    from stationary_pert), computeDt_pertS]
  norm_num

lemma velocity_pert : velocityNext (zState 10) pertS ⟨0, 0, 9.98⟩ = 0.0099 := by
  have hg : (zState 10).gravity = g10 := rfl
  have hrr : pertS.rotationRate = none := rfl
  have hst : stationaryOf (zState 10).gravity ⟨0, 0, 9.98⟩ pertS.rotationRate := by
    rw [hg, hrr]; exact stationary_pert
  have hcnt : nextCount (zState 10) pertS ⟨0, 0, 9.98⟩ = 11 := by
    unfold nextCount
    rw [if_pos hst]
    rfl
  have hav : aVertOf (zState 10).gravity ⟨0, 0, 9.98⟩ pertS.rotationRate = 0.0198 := by
    rw [hg, hrr]; exact aVert_pert
  simp only [velocityNext]
  rw [hcnt, computeDt_pertS, if_pos hst, hav]
  rw [if_neg (by norm_num)]
  show (0 : ℝ) + 0.0198 * 100 * 0.005 = 0.0099
  norm_num

lemma run_ex_velocity : (runMeasurement (zState 0) exStream).velocity = 0.0099 := by
  unfold exStream runMeasurement
  rw [List.foldl_append]
  have h1 := run_zState 10 0
  unfold runMeasurement at h1
  rw [h1, show (0 + 10 : ℕ) = 10 from rfl, List.foldl_cons, List.foldl_nil]
  rw [onMotion_fst_some (zState 10) pertS ⟨0, 0, 9.98⟩ rfl]
  exact velocity_pert

/-- In the canonical variant the peak never exceeds the displacement:
coupling invariant used for the implicit claim. -/
def PeakEqInv (s : EngineState) : Prop :=
  0 ≤ s.displacement ∧ s.displacement ≤ 300 ∧
    s.peakDisplacement = s.displacement

lemma peakEq_step (s : EngineState) (m : MotionSample) (h : PeakEqInv s) :
    PeakEqInv ((onMotion s m).1) ∧
      s.displacement ≤ ((onMotion s m).1).displacement := by
  obtain ⟨h0, h300, heq⟩ := h
  rcases haccel : m.accel with _ | a
  · rw [onMotion_fst_none s m haccel]
    exact ⟨⟨h0, h300, heq⟩, le_refl _⟩
  · rw [onMotion_fst_some s m a haccel]
    have hmid : s.displacement ≤ displacementMid s m a := displacementMid_ge s m a
    have hfl : displacementFloored s m a = displacementMid s m a := by
      unfold displacementFloored
      rw [if_neg (not_lt.mpr (le_trans h0 hmid))]
    have hfl_ge : s.displacement ≤ displacementFloored s m a := by
      rw [hfl]; exact hmid
    have hpr : peakRaw s m a = displacementFloored s m a := by
      unfold peakRaw
      rw [heq]
      exact max_eq_right hfl_ge
    have hpeq : peakNext s m a = displacementNext s m a := by
      unfold peakNext displacementNext
      rw [hpr]
    have hge : s.displacement ≤ displacementNext s m a := by
      unfold displacementNext
      split_ifs with h1
      · exact h300
      · exact hfl_ge
    exact ⟨⟨displacementNext_nonneg s m a, displacementNext_le300 s m a, hpeq⟩, hge⟩

lemma peakEq_run (s : EngineState) (l : List MotionSample) (h : PeakEqInv s) :
    PeakEqInv (runMeasurement s l) := by
  induction l generalizing s with
  | nil => exact h
  | cons m t ih =>
      show PeakEqInv (runMeasurement ((onMotion s m).1) t)
      exact ih _ (peakEq_step s m h).1

lemma peak_mono_step (s : EngineState) (m : MotionSample)
    (h : s.peakDisplacement ≤ 300) :
    s.peakDisplacement ≤ (onMotion s m).1.peakDisplacement := by
  rcases haccel : m.accel with _ | a
  · rw [onMotion_fst_none s m haccel]
  · rw [onMotion_fst_some s m a haccel]
    exact peakNext_ge s m a h

lemma peak_le300_step (s : EngineState) (m : MotionSample)
    (h : s.peakDisplacement ≤ 300) :
    (onMotion s m).1.peakDisplacement ≤ 300 := by
  rcases haccel : m.accel with _ | a
  · rw [onMotion_fst_none s m haccel]
    exact h
  · rw [onMotion_fst_some s m a haccel]
    exact peakNext_le300 s m a

lemma foldl_vecAdd_x (l : List Vec3) (v : Vec3) :
    (l.foldl vecAdd v).x = v.x + (l.map Vec3.x).sum := by
  induction l generalizing v with
  | nil => simp
  | cons a t ih =>
      rw [List.foldl_cons, ih, List.map_cons, List.sum_cons]
      show (vecAdd v a).x + _ = _
      unfold vecAdd
      ring

lemma foldl_vecAdd_y (l : List Vec3) (v : Vec3) :
    (l.foldl vecAdd v).y = v.y + (l.map Vec3.y).sum := by
  induction l generalizing v with
  | nil => simp
  | cons a t ih =>
      rw [List.foldl_cons, ih, List.map_cons, List.sum_cons]
      show (vecAdd v a).y + _ = _
      unfold vecAdd
      ring

lemma foldl_vecAdd_z (l : List Vec3) (v : Vec3) :
    (l.foldl vecAdd v).z = v.z + (l.map Vec3.z).sum := by
  induction l generalizing v with
  | nil => simp
  | cons a t ih =>
      rw [List.foldl_cons, ih, List.map_cons, List.sum_cons]
      show (vecAdd v a).z + _ = _
      unfold vecAdd
      ring

lemma jsRound1_eq (x : ℝ) (n : ℤ) (h1 : (n : ℝ) ≤ x * 10 + 1 / 2)
    (h2 : x * 10 + 1 / 2 < n + 1) : jsRound1 x = (n : ℝ) / 10 := by
  unfold jsRound1
  rw [round_eq, Int.floor_eq_iff.mpr ⟨h1, h2⟩]

lemma jsRound1_idem (x : ℝ) : jsRound1 (jsRound1 x) = jsRound1 x := by
  unfold jsRound1
  rw [div_mul_cancel₀ _ (by norm_num : (10 : ℝ) ≠ 0), round_intCast]

/-- The state of the confidence counterexample: prior peak displacement
0.05 cm with matching displacement and zero velocity. -/
def s5 : EngineState :=
  { gravity := g10
    lastTimestamp := 0
    velocity := 0
    displacement := 0.05
    peakDisplacement := 0.05
    stationarySamples := 0
    totalSamples := 5
    hasCalibrated := true
    isCalibrating := false
    isMeasuring := true
    isComplete := false
    error := none }

/-- A still 20 ms sample fed to `s5`. -/
def m5 : MotionSample :=
  { accel := some g10, rotationRate := none, timestamp := 0, intervalMs := some 20 }

lemma computeDt_m5 (s : EngineState) : computeDt s m5 = 0.02 := by
  unfold computeDt computeRawDt m5
  norm_num

lemma velocityNext_s5 : velocityNext s5 m5 g10 = 0 := by
  have hst : stationaryOf s5.gravity g10 m5.rotationRate := stationary_still
  have hav : aVertOf s5.gravity g10 m5.rotationRate = 0 :=
    aVert_same g10 none (by rw [rotMag_none]; norm_num)
  simp only [velocityNext]
  rw [hav, if_pos hst]
  have h0 : s5.velocity + 0 * 100 * computeDt s5 m5 = 0 := by
    show (0 : ℝ) + 0 * 100 * computeDt s5 m5 = 0
    ring
  rw [h0, ite_self]

lemma peakNext_s5 : peakNext s5 m5 g10 = 0.05 := by
  have hmid : displacementMid s5 m5 g10 = 0.05 := by
    unfold displacementMid
    rw [velocityNext_s5]
    show (0.05 : ℝ) + max 0 0 * computeDt s5 m5 = 0.05
    simp
  have hfl : displacementFloored s5 m5 g10 = 0.05 := by
    unfold displacementFloored
    rw [hmid]
    norm_num
  unfold peakNext peakRaw
  rw [hfl]
  rw [show max s5.peakDisplacement (0.05 : ℝ) = 0.05 from
    max_eq_right (by show (0.05 : ℝ) ≤ 0.05; norm_num)]
  norm_num

lemma jsRound1_005 : jsRound1 (0.05 : ℝ) = 0.1 := by
  rw [jsRound1_eq 0.05 1 (by norm_num) (by norm_num)]
  norm_num

lemma toFeetInches_01 : toFeetInches (0.1 : ℝ) = ⟨0, 0, 0.1⟩ := by
  have hfeet : (⌊(0.1 : ℝ) / 2.54 / 12⌋ : ℤ) = 0 := by
    rw [Int.floor_eq_zero_iff]
    constructor <;> norm_num
  have htr : jsTrunc ((0.1 : ℝ) / 2.54 / 12) = 0 := by
    unfold jsTrunc
    rw [if_pos (by norm_num : (0 : ℝ) ≤ 0.1 / 2.54 / 12)]
    exact hfeet
  have hmod : jsMod ((0.1 : ℝ) / 2.54) 12 = (0.1 : ℝ) / 2.54 := by
    unfold jsMod
    rw [htr]
    norm_num
  have hinch : jsRound1 ((0.1 : ℝ) / 2.54) = 0 := by
    rw [jsRound1_eq ((0.1 : ℝ) / 2.54) 0 (by norm_num) (by norm_num)]
    norm_num
  have hcm : jsRound1 (0.1 : ℝ) = 0.1 := by
    rw [jsRound1_eq 0.1 1 (by norm_num) (by norm_num)]
    norm_num
  simp only [toFeetInches]
  rw [hfeet, hmod, hinch, hcm]
  ext <;> norm_num

lemma confBase_01 : confBaseOf (0.1 : ℝ) = 60.0175 := by
  unfold confBaseOf
  rw [show ((0.1 : ℝ) / 200 * 35) = 0.0175 by norm_num,
    min_eq_right (by norm_num : (0.0175 : ℝ) ≤ 35),
    min_eq_right (by norm_num : (60 : ℝ) + 0.0175 ≤ 95)]
  norm_num

/-- The snapshot emitted for the confidence counterexample. -/
def snap5 : Snapshot := ⟨0.1, 0, 0, 63⟩

lemma conf_s5 :
    jsRound1 (confOf (0.1 : ℝ) (stationaryOf s5.gravity g10 m5.rotationRate)) = 63 := by
  unfold confOf
  rw [if_pos (show stationaryOf s5.gravity g10 m5.rotationRate from stationary_still),
    confBase_01,
    min_eq_right (by norm_num : (60.0175 : ℝ) + 3 ≤ 99.5)]
  rw [jsRound1_eq (60.0175 + 3 : ℝ) 630 (by norm_num) (by norm_num)]
  norm_num

lemma onMotion_s5_snd : (onMotion s5 m5).2 = some snap5 := by
  rw [onMotion_snd_some s5 m5 g10 rfl, peakNext_s5]
  simp only [snapshotOf]
  rw [jsRound1_005, toFeetInches_01]
  show some (Snapshot.mk 0.1 0 0
    (jsRound1 (confOf (0.1 : ℝ) (stationaryOf s5.gravity g10 m5.rotationRate)))) =
    some snap5
  rw [conf_s5]
  rfl

/-- Definition following the spec's words, for comparison with the
code: the confidence formula applied directly to the current peak
displacement, `base = min(95, 60 + min(35, (peak/200)*35))`, raised by
3 and capped at 99.5 when stationary. -/
noncomputable def specConfidence (peak : ℝ) (stat : Prop) : ℝ :=
  if stat then min 99.5 (min 95 (60 + min 35 (peak / 200 * 35)) + 3)
  else min 95 (60 + min 35 (peak / 200 * 35))

lemma specConfidence_005 : specConfidence 0.05 True = 63.00875 := by
  unfold specConfidence
  rw [if_pos trivial,
    show ((0.05 : ℝ) / 200 * 35) = 0.00875 by norm_num,
    min_eq_right (by norm_num : (0.00875 : ℝ) ≤ 35),
    min_eq_right (by norm_num : (60 : ℝ) + 0.00875 ≤ 95),
    min_eq_right (by norm_num : (60 : ℝ) + 0.00875 + 3 ≤ 99.5)]
  norm_num

/-- The state of the invalid-dt counterexample: mid-measurement with
upward velocity 10 cm/s and a last timestamp of 100 ms. -/
def s4 : EngineState :=
  { gravity := g10
    lastTimestamp := 100
    velocity := 10
    displacement := 0
    peakDisplacement := 0
    stationarySamples := 0
    totalSamples := 0
    hasCalibrated := true
    isCalibrating := false
    isMeasuring := true
    isComplete := false
    error := none }

/-- A still sample whose wall-clock timestamp (50 ms) precedes the last
seen timestamp, making the raw time delta negative; no platform
interval is supplied. -/
def m4 : MotionSample :=
  { accel := some g10, rotationRate := none, timestamp := 50, intervalMs := none }

lemma rawDt_m4 : computeRawDt s4 m4 = -0.05 := by
  unfold computeRawDt m4 s4
  norm_num

lemma computeDt_m4 : computeDt s4 m4 = 0.005 := by
  unfold computeDt
  rw [rawDt_m4]
  rw [min_eq_right (by norm_num : (-0.05 : ℝ) ≤ 0.05),
    max_eq_left (by norm_num : (-0.05 : ℝ) ≤ 0.005)]

lemma velocityNext_s4 : velocityNext s4 m4 g10 = 10 := by
  have hst : stationaryOf s4.gravity g10 m4.rotationRate := stationary_still
  have hav : aVertOf s4.gravity g10 m4.rotationRate = 0 :=
    aVert_same g10 none (by rw [rotMag_none]; norm_num)
  have hcnt : nextCount s4 m4 g10 = 1 := by
    unfold nextCount
    rw [if_pos hst]
    rfl
  simp only [velocityNext]
  rw [hav, if_pos hst, hcnt, computeDt_m4]
  rw [if_neg (by norm_num)]
  show (10 : ℝ) + 0 * 100 * 0.005 = 10
  norm_num

lemma dispNext_s4 : displacementNext s4 m4 g10 = 0.05 := by
  have hmid : displacementMid s4 m4 g10 = 0.05 := by
    unfold displacementMid
    rw [velocityNext_s4, computeDt_m4]
    rw [show max (0 : ℝ) 10 = 10 from max_eq_right (by norm_num)]
    show (0 : ℝ) + 10 * 0.005 = 0.05
    norm_num
  have hfl : displacementFloored s4 m4 g10 = 0.05 := by
    unfold displacementFloored
    rw [hmid]
    norm_num
  unfold displacementNext
  rw [hfl]
  norm_num

/-- A sample with a large rotation rate (5 deg/s around alpha), which
must freeze the gravity estimate. -/
def m3 : MotionSample :=
  { accel := some g10, rotationRate := some ⟨5, 0, 0⟩, timestamp := 0,
    intervalMs := some 50 }

lemma rotMag_m3 : rotMagOf m3.rotationRate = 5 := by
  show Real.sqrt ((5 : ℝ) ^ 2 + (0 : ℝ) ^ 2 + (0 : ℝ) ^ 2) = 5
  rw [show ((5 : ℝ) ^ 2 + (0 : ℝ) ^ 2 + (0 : ℝ) ^ 2) = 5 ^ 2 by norm_num,
    Real.sqrt_sq (by norm_num : (0 : ℝ) ≤ 5)]

/-- Claim C1: in the canonical (peak-tracking) variant, processing any
sequence of samples from a state satisfying the integrator invariant
keeps `0 ≤ displacementCm ≤ 300`, `0 ≤ peakDisplacementCm ≤ 300` and
`peakDisplacementCm ≥ displacementCm` after every update. -/
theorem c1_integrator_invariant (s : EngineState) (l : List MotionSample)
    (h : IntegratorInv s) : IntegratorInv (runMeasurement s l) :=
  integratorInv_run s l h

/-- Witness for C1 at the freshly started state and a two-sample stream. -/
theorem c1_integrator_invariant_witness :
    IntegratorInv (zState 0) ∧
      IntegratorInv (runMeasurement (zState 0) [stillS, pertS]) := by
  have h : IntegratorInv (zState 0) :=
    ⟨le_refl 0, by show (0 : ℝ) ≤ 300; norm_num, le_refl 0,
      by show (0 : ℝ) ≤ 300; norm_num, le_refl 0⟩
  exact ⟨h, c1_integrator_invariant (zState 0) [stillS, pertS] h⟩

/-- Claim C2 fails as stated: on `exStream` the spec's accumulated
stationary seconds reach 0.505 s ≥ 0.5 s (every sample is classified
stationary), yet the velocity at the end of the stream is 0.0099 cm/s,
not 0, because the code's zero-velocity condition multiplies the
stationary sample count by the current sample's dt instead of summing
the dts. -/
theorem c2_zupt_counterexample :
    0.5 ≤ specStationaryAccum (zState 0) exStream ∧
      (runMeasurement (zState 0) exStream).velocity ≠ 0 := by
  constructor
  · rw [accum_ex]
    norm_num
  · rw [run_ex_velocity]
    norm_num

/-- Claim C2 (amended): the integrator forces velocity to exactly 0 on
a sample precisely when the updated consecutive-stationary sample count
multiplied by that sample's clamped dt reaches 0.5 s; for streams with
a uniform dt this coincides with 0.5 s of accumulated stationary time. -/
theorem c2_zupt_amended (s : EngineState) (m : MotionSample) (a : Vec3)
    (h : m.accel = some a)
    (hz : ((nextCount s m a : ℝ)) * computeDt s m ≥ 0.5) :
    (onMotion s m).1.velocity = 0 := by
  rw [onMotion_fst_some s m a h]
  show velocityNext s m a = 0
  simp only [velocityNext]
  rw [if_pos hz]

/-- Witness for the amended C2: a tenth consecutive stationary 50 ms
sample triggers the zero-velocity update. -/
theorem c2_zupt_amended_witness :
    stillS.accel = some g10 ∧
      ((nextCount (zState 9) stillS g10 : ℝ)) * computeDt (zState 9) stillS ≥ 0.5 ∧
      (onMotion (zState 9) stillS).1.velocity = 0 := by
  have h1 : stillS.accel = some g10 := rfl
  have hc : nextCount (zState 9) stillS g10 = 10 := by
    unfold nextCount
    rw [if_pos (show stationaryOf (zState 9).gravity g10 stillS.rotationRate from
      stationary_still)]
    rfl
  have h2 : ((nextCount (zState 9) stillS g10 : ℝ)) * computeDt (zState 9) stillS ≥
      0.5 := by
    rw [hc, computeDt_stillS]
    norm_num
  exact ⟨h1, h2, c2_zupt_amended (zState 9) stillS g10 h1 h2⟩

/-- Claim C3: during measurement the low-pass gravity candidate is
applied exactly when the candidate linear-acceleration magnitude is
below 0.2 m/s² and the rotation magnitude is below 3 deg/s; otherwise
the gravity estimate after the sample is identical to the estimate
before it. -/
theorem c3_gravity_freeze (s : EngineState) (m : MotionSample) (a : Vec3)
    (h : m.accel = some a) :
    (¬ allowGUpdate s.gravity a m.rotationRate →
        (onMotion s m).1.gravity = s.gravity) ∧
    (allowGUpdate s.gravity a m.rotationRate →
        (onMotion s m).1.gravity = gravityCandidate s.gravity a) := by
  rw [onMotion_fst_some s m a h]
  constructor
  · intro hn
    show gravityNext s.gravity a m.rotationRate = s.gravity
    unfold gravityNext
    rw [if_neg hn]
  · intro hp
    show gravityNext s.gravity a m.rotationRate = gravityCandidate s.gravity a
    unfold gravityNext
    rw [if_pos hp]

/-- Witness for C3: a 5 deg/s rotation sample freezes gravity. -/
theorem c3_gravity_freeze_witness :
    m3.accel = some g10 ∧
      ¬ allowGUpdate (zState 0).gravity g10 m3.rotationRate ∧
      (onMotion (zState 0) m3).1.gravity = (zState 0).gravity := by
  have h1 : m3.accel = some g10 := rfl
  have h2 : ¬ allowGUpdate (zState 0).gravity g10 m3.rotationRate := by
    rintro ⟨-, hrot⟩
    rw [rotMag_m3] at hrot
    norm_num at hrot
  exact ⟨h1, h2, (c3_gravity_freeze (zState 0) m3 g10 h1).1 h2⟩

/-- Claim C4 fails as stated: feeding `m4` (whose raw wall-clock dt is
-0.05 s, non-positive) to state `s4` is not dropped -- the dt is
clamped to 0.005 s, displacement changes from 0 to 0.05 cm and the
sample counter advances. -/
theorem c4_invalid_dt_counterexample :
    computeRawDt s4 m4 ≤ 0 ∧
      (onMotion s4 m4).1.displacement ≠ s4.displacement ∧
      (onMotion s4 m4).1.totalSamples = s4.totalSamples + 1 := by
  refine ⟨?_, ?_, ?_⟩
  · rw [rawDt_m4]
    norm_num
  · rw [onMotion_fst_some s4 m4 g10 rfl]
    show displacementNext s4 m4 g10 ≠ s4.displacement
    rw [dispNext_s4]
    show (0.05 : ℝ) ≠ 0
    norm_num
  · rw [onMotion_fst_some s4 m4 g10 rfl]

/-- Claim C4 (amended): only a sample with missing acceleration is
dropped, and even then the last-timestamp ref is still overwritten; a
sample with non-positive or out-of-range dt is not dropped -- its dt is
clamped into [0.005 s, 0.05 s] and the sample is fully processed. -/
theorem c4_invalid_dt_amended (s : EngineState) (m : MotionSample) :
    (m.accel = none →
        (onMotion s m).1 = { s with lastTimestamp := m.timestamp } ∧
        (onMotion s m).2 = none) ∧
    (∀ a, m.accel = some a →
        0.005 ≤ computeDt s m ∧ computeDt s m ≤ 0.05 ∧
        (onMotion s m).1.totalSamples = s.totalSamples + 1) := by
  constructor
  · intro h
    constructor
    · exact onMotion_fst_none s m h
    · unfold onMotion
      rw [h]
  · intro a h
    refine ⟨computeDt_lb s m, computeDt_ub s m, ?_⟩
    rw [onMotion_fst_some s m a h]

/-- Witness for the amended C4 at the clamped negative-dt input. -/
theorem c4_invalid_dt_amended_witness :
    m4.accel = some g10 ∧
      (0.005 ≤ computeDt s4 m4 ∧ computeDt s4 m4 ≤ 0.05 ∧
        (onMotion s4 m4).1.totalSamples = s4.totalSamples + 1) :=
  ⟨rfl, (c4_invalid_dt_amended s4 m4).2 g10 rfl⟩

/-- Claim C5 fails as stated: at state `s5` and sample `m5` the latest
stationary flag is set and the current peak displacement is 0.05 cm,
but the reported confidence is 63, while the spec formula applied to
the peak displacement itself gives 63.00875 -- the code applies the
formula to the peak rounded to 0.1 cm and rounds the result again. -/
theorem c5_confidence_counterexample :
    stationaryOf s5.gravity g10 m5.rotationRate ∧
      (onMotion s5 m5).1.peakDisplacement = 0.05 ∧
      ((onMotion s5 m5).2).map Snapshot.confidence = some 63 ∧
      specConfidence 0.05 True = 63.00875 ∧ (63 : ℝ) ≠ 63.00875 := by
  refine ⟨stationary_still, ?_, ?_, specConfidence_005, by norm_num⟩
  · rw [onMotion_fst_some s5 m5 g10 rfl]
    exact peakNext_s5
  · rw [onMotion_s5_snd]
    rfl

/-- Claim C5 (amended): the reported confidence equals the spec formula
applied to the peak displacement rounded to 0.1 cm, the result being
rounded to one decimal as stored; consequently a measurement with peak
displacement 0 reports confidence at most 63. -/
theorem c5_confidence_amended (s : EngineState) (m : MotionSample) (a : Vec3)
    (snap : Snapshot) (h : m.accel = some a)
    (hs : (onMotion s m).2 = some snap) :
    snap.confidence =
      jsRound1 (specConfidence (jsRound1 ((onMotion s m).1.peakDisplacement))
        (stationaryOf s.gravity a m.rotationRate)) ∧
      ((onMotion s m).1.peakDisplacement = 0 → snap.confidence ≤ 63) := by
  have h2 := onMotion_snd_some s m a h
  rw [hs] at h2
  have hsnap : snap =
      snapshotOf (peakNext s m a) (stationaryOf s.gravity a m.rotationRate) :=
    Option.some.inj h2
  have hpk : (onMotion s m).1.peakDisplacement = peakNext s m a := by
    rw [onMotion_fst_some s m a h]
  have hconf : snap.confidence =
      jsRound1 (confOf (jsRound1 (peakNext s m a))
        (stationaryOf s.gravity a m.rotationRate)) := by
    rw [hsnap]
    simp only [snapshotOf, toFeetInches]
    rw [jsRound1_idem]
  constructor
  · rw [hconf, hpk]
    rfl
  · intro hp
    rw [hpk] at hp
    rw [hconf, hp]
    have hz : jsRound1 (0 : ℝ) = 0 := by
      rw [jsRound1_eq 0 0 (by norm_num) (by norm_num)]
      norm_num
    rw [hz]
    have hbase : confBaseOf (0 : ℝ) = 60 := by
      unfold confBaseOf
      rw [show ((0 : ℝ) / 200 * 35) = 0 by norm_num,
        min_eq_right (by norm_num : (0 : ℝ) ≤ 35),
        min_eq_right (by norm_num : (60 : ℝ) + 0 ≤ 95)]
      norm_num
    unfold confOf
    split_ifs with hst
    · rw [hbase, min_eq_right (by norm_num : (60 : ℝ) + 3 ≤ 99.5)]
      rw [jsRound1_eq (60 + 3 : ℝ) 630 (by norm_num) (by norm_num)]
      norm_num
    · rw [hbase]
      rw [jsRound1_eq (60 : ℝ) 600 (by norm_num) (by norm_num)]
      norm_num

/-- Witness for the amended C5 at the concrete snapshot `snap5`. -/
theorem c5_confidence_amended_witness :
    m5.accel = some g10 ∧ (onMotion s5 m5).2 = some snap5 ∧
      snap5.confidence =
        jsRound1 (specConfidence (jsRound1 ((onMotion s5 m5).1.peakDisplacement))
          (stationaryOf s5.gravity g10 m5.rotationRate)) :=
  ⟨rfl, onMotion_s5_snd,
    (c5_confidence_amended s5 m5 g10 snap5 rfl onMotion_s5_snd).1⟩

/-- Claim C6: `startMeasurement` before any successful calibration only
records the not-calibrated error, leaving every other field (in
particular all integrator state) untouched; when calibrated it succeeds
and zeroes the integrator state, and since `stopMeasurement` preserves
the calibration flag, re-measurement after completion succeeds without
recalibrating. -/
theorem c6_start_measurement (s : EngineState) :
    (s.hasCalibrated = false →
        startMeasurement s = { s with error := some EngineError.notCalibrated }) ∧
    (s.hasCalibrated = true →
        (startMeasurement s).velocity = 0 ∧
        (startMeasurement s).displacement = 0 ∧
        (startMeasurement s).peakDisplacement = 0 ∧
        (startMeasurement s).stationarySamples = 0 ∧
        (startMeasurement s).error = none ∧
        (startMeasurement s).isMeasuring = true) ∧
    (s.hasCalibrated = true →
        (stopMeasurement s).isComplete = true ∧
        (startMeasurement (stopMeasurement s)).error = none ∧
        (startMeasurement (stopMeasurement s)).velocity = 0 ∧
        (startMeasurement (stopMeasurement s)).isMeasuring = true) := by
  refine ⟨?_, ?_, ?_⟩
  · intro h
    unfold startMeasurement
    rw [h]
    rfl
  · intro h
    unfold startMeasurement
    rw [h]
    exact ⟨rfl, rfl, rfl, rfl, rfl, rfl⟩
  · intro h
    unfold startMeasurement stopMeasurement
    rw [show ({ s with isMeasuring := false, isComplete := true } :
      EngineState).hasCalibrated = s.hasCalibrated from rfl, h]
    exact ⟨rfl, rfl, rfl, rfl⟩

/-- Witness for C6 at a calibrated state. -/
theorem c6_start_measurement_witness :
    (zState 0).hasCalibrated = true ∧
      ((startMeasurement (zState 0)).velocity = 0 ∧
        (startMeasurement (zState 0)).displacement = 0 ∧
        (startMeasurement (zState 0)).peakDisplacement = 0 ∧
        (startMeasurement (zState 0)).stationarySamples = 0 ∧
        (startMeasurement (zState 0)).error = none ∧
        (startMeasurement (zState 0)).isMeasuring = true) :=
  ⟨rfl, (c6_start_measurement (zState 0)).2.1 rfl⟩

/-- Claim C7: `calibrate` with the samples collected in the window
seeds the gravity estimate with their componentwise arithmetic mean and
marks calibration successful; with zero samples it surfaces the
no-data calibration error and leaves gravity and the calibration flag
unchanged. -/
theorem c7_calibration (s : EngineState) (l : List Vec3) :
    (l = [] →
        (calibrate s l).gravity = s.gravity ∧
        (calibrate s l).hasCalibrated = s.hasCalibrated ∧
        (calibrate s l).error = some EngineError.calibrationNoData) ∧
    (l ≠ [] →
        (calibrate s l).gravity.x = (l.map Vec3.x).sum / (l.length : ℝ) ∧
        (calibrate s l).gravity.y = (l.map Vec3.y).sum / (l.length : ℝ) ∧
        (calibrate s l).gravity.z = (l.map Vec3.z).sum / (l.length : ℝ) ∧
        (calibrate s l).hasCalibrated = true ∧
        (calibrate s l).error = none) := by
  constructor
  · intro h
    subst h
    unfold calibrate
    exact ⟨rfl, rfl, rfl⟩
  · intro h
    have hne : l.isEmpty = false := by
      rw [List.isEmpty_eq_false]
      exact h
    unfold calibrate
    rw [hne]
    refine ⟨?_, ?_, ?_, rfl, rfl⟩
    · show (vecScale (l.foldl vecAdd ⟨0, 0, 0⟩) (1 / (l.length : ℝ))).x = _
      unfold vecScale
      show (l.foldl vecAdd ⟨0, 0, 0⟩).x * (1 / (l.length : ℝ)) = _
      rw [foldl_vecAdd_x]
      show (0 + (l.map Vec3.x).sum) * (1 / (l.length : ℝ)) = _
      rw [zero_add, mul_one_div]
    · show (vecScale (l.foldl vecAdd ⟨0, 0, 0⟩) (1 / (l.length : ℝ))).y = _
      unfold vecScale
      show (l.foldl vecAdd ⟨0, 0, 0⟩).y * (1 / (l.length : ℝ)) = _
      rw [foldl_vecAdd_y]
      show (0 + (l.map Vec3.y).sum) * (1 / (l.length : ℝ)) = _
      rw [zero_add, mul_one_div]
    · show (vecScale (l.foldl vecAdd ⟨0, 0, 0⟩) (1 / (l.length : ℝ))).z = _
      unfold vecScale
      show (l.foldl vecAdd ⟨0, 0, 0⟩).z * (1 / (l.length : ℝ)) = _
      rw [foldl_vecAdd_z]
      show (0 + (l.map Vec3.z).sum) * (1 / (l.length : ℝ)) = _
      rw [zero_add, mul_one_div]

/-- Witness for C7 on a two-sample calibration window. -/
theorem c7_calibration_witness :
    ([⟨1, 2, 3⟩, ⟨3, 2, 1⟩] : List Vec3) ≠ [] ∧
      ((calibrate (resetMeasurement (zState 0)) [⟨1, 2, 3⟩, ⟨3, 2, 1⟩]).gravity.x =
          (([⟨1, 2, 3⟩, ⟨3, 2, 1⟩] : List Vec3).map Vec3.x).sum /
            ((([⟨1, 2, 3⟩, ⟨3, 2, 1⟩] : List Vec3).length : ℝ)) ∧
        (calibrate (resetMeasurement (zState 0)) [⟨1, 2, 3⟩, ⟨3, 2, 1⟩]).gravity.y =
          (([⟨1, 2, 3⟩, ⟨3, 2, 1⟩] : List Vec3).map Vec3.y).sum /
            ((([⟨1, 2, 3⟩, ⟨3, 2, 1⟩] : List Vec3).length : ℝ)) ∧
        (calibrate (resetMeasurement (zState 0)) [⟨1, 2, 3⟩, ⟨3, 2, 1⟩]).gravity.z =
          (([⟨1, 2, 3⟩, ⟨3, 2, 1⟩] : List Vec3).map Vec3.z).sum /
            ((([⟨1, 2, 3⟩, ⟨3, 2, 1⟩] : List Vec3).length : ℝ)) ∧
        (calibrate (resetMeasurement (zState 0)) [⟨1, 2, 3⟩, ⟨3, 2, 1⟩]).hasCalibrated =
          true ∧
        (calibrate (resetMeasurement (zState 0)) [⟨1, 2, 3⟩, ⟨3, 2, 1⟩]).error = none) :=
  ⟨by simp, (c7_calibration (resetMeasurement (zState 0)) _).2 (by simp)⟩

/-- Claim C8: for two consecutively processed samples the peak
displacement after the second sample is at least the peak displacement
after the first, provided the starting peak is within the 300 cm clamp
range (which every reachable state satisfies). -/
theorem c8_monotonic_peak (s : EngineState) (m₁ m₂ : MotionSample)
    (h : s.peakDisplacement ≤ 300) :
    (onMotion s m₁).1.peakDisplacement ≤
      (onMotion ((onMotion s m₁).1) m₂).1.peakDisplacement :=
  peak_mono_step ((onMotion s m₁).1) m₂ (peak_le300_step s m₁ h)

/-- Witness for C8 at the freshly started state. -/
theorem c8_monotonic_peak_witness :
    (zState 0).peakDisplacement ≤ 300 ∧
      (onMotion (zState 0) stillS).1.peakDisplacement ≤
        (onMotion ((onMotion (zState 0) stillS).1) pertS).1.peakDisplacement :=
  ⟨by show (0 : ℝ) ≤ 300; norm_num,
    c8_monotonic_peak (zState 0) stillS pertS (by show (0 : ℝ) ≤ 300; norm_num)⟩

/-- Claim C9: `resetMeasurement` is idempotent and from any state
yields the default engine state -- idle flags, zero integrator state
and the default gravity estimate (0, 0, 9.81). -/
theorem c9_reset_idempotent (s : EngineState) :
    resetMeasurement (resetMeasurement s) = resetMeasurement s ∧
      resetMeasurement s =
        { gravity := ⟨0, 0, 9.81⟩
          lastTimestamp := 0
          velocity := 0
          displacement := 0
          peakDisplacement := 0
          stationarySamples := 0
          totalSamples := 0
          hasCalibrated := false
          isCalibrating := false
          isMeasuring := false
          isComplete := false
          error := none } :=
  ⟨rfl, rfl⟩

/-- Claim C10 (implicit): starting from a state whose peak equals its
displacement (as `startMeasurement` produces), the displacement is
non-decreasing across every processed sample -- only the non-negative
part of velocity is integrated, so the lower clamp never binds -- and
the peak displacement equals the displacement after every update. -/
theorem c10_peak_equals_displacement (s : EngineState) (h : PeakEqInv s)
    (l : List MotionSample) (m : MotionSample) :
    (runMeasurement s l).displacement ≤
        (runMeasurement s (l ++ [m])).displacement ∧
      (runMeasurement s (l ++ [m])).peakDisplacement =
        (runMeasurement s (l ++ [m])).displacement := by
  have hrun : PeakEqInv (runMeasurement s l) := peakEq_run s l h
  have happ : runMeasurement s (l ++ [m]) = (onMotion (runMeasurement s l) m).1 := by
    unfold runMeasurement
    rw [List.foldl_append, List.foldl_cons, List.foldl_nil]
  rw [happ]
  obtain ⟨hstep, hle⟩ := peakEq_step (runMeasurement s l) m hrun
  exact ⟨hle, hstep.2.2⟩

/-- Witness for C10 at the freshly started state. -/
theorem c10_peak_equals_displacement_witness :
    PeakEqInv (zState 0) ∧
      ((runMeasurement (zState 0) [stillS]).displacement ≤
          (runMeasurement (zState 0) ([stillS] ++ [pertS])).displacement ∧
        (runMeasurement (zState 0) ([stillS] ++ [pertS])).peakDisplacement =
          (runMeasurement (zState 0) ([stillS] ++ [pertS])).displacement) := by
  have h : PeakEqInv (zState 0) :=
    ⟨le_refl 0, by show (0 : ℝ) ≤ 300; norm_num, rfl⟩
  exact ⟨h, c10_peak_equals_displacement (zState 0) h [stillS] pertS⟩

end HeightScanner
